import Mathlib

/-
A shallow embedding of the DEF writer of src/odb/src/defout
(defout.h and defout_impl.cpp): the data the writer consumes and the
emission functions it runs, translated definition by definition from the
source, together with theorems about version gating, record counts,
property emission, selection filtering, special-net geometry recovery and
the wire path encoder.
-/

namespace DefOut

/-
defout.h declares the target-format enumeration in this order:

  enum Version { DEF_5_8, DEF_5_7, DEF_5_6, DEF_5_5, DEF_5_4, DEF_5_3 };

so the integral values a C++ compiler assigns are DEF_5_8 = 0, DEF_5_7 = 1,
DEF_5_6 = 2, DEF_5_5 = 3, DEF_5_4 = 4, DEF_5_3 = 5.  Every ordered
comparison on _version in defout_impl.cpp compares these integral values.
-/
inductive Version where
  | DEF_5_8
  | DEF_5_7
  | DEF_5_6
  | DEF_5_5
  | DEF_5_4
  | DEF_5_3
deriving DecidableEq, Repr

/- The integral value of each enumerator of defout::Version (declaration
order, starting at 0). -/
def Version.enumVal : Version → Nat
  | .DEF_5_8 => 0
  | .DEF_5_7 => 1
  | .DEF_5_6 => 2
  | .DEF_5_5 => 3
  | .DEF_5_4 => 4
  | .DEF_5_3 => 5

/- The C++ comparison (v >= w) on defout::Version values. -/
def vge (v w : Version) : Bool := w.enumVal ≤ v.enumVal

/- The C++ comparison (v > w) on defout::Version values. -/
def vgt (v w : Version) : Bool := w.enumVal < v.enumVal

/- The C++ comparison (v < w) on defout::Version values. -/
def vlt (v w : Version) : Bool := v.enumVal < w.enumVal

/- The C++ comparison (v <= w) on defout::Version values. -/
def vle (v w : Version) : Bool := v.enumVal ≤ w.enumVal

/- Byte-wise lexicographic comparison of character lists: the semantics of
operator< on std::string for the name strings the writer sorts by. -/
def charListLt : List Char → List Char → Bool
  | [], [] => false
  | [], _ :: _ => true
  | _ :: _, [] => false
  | a :: as, b :: bs =>
    if a.toNat < b.toNat then true
    else if b.toNat < a.toNat then false
    else charListLt as bs

/- operator< on std::string, on the embedded String type. -/
def strLt (a b : String) : Bool := charListLt a.toList b.toList

/- Insertion of one element into a list sorted by a boolean order. -/
def insertSorted {α : Type} (le : α → α → Bool) (x : α) : List α → List α
  | [] => [x]
  | y :: ys => if le x y then x :: y :: ys else y :: insertSorted le x ys

/- Insertion sort by a boolean order.  std::sort only promises an ordered
permutation, which is what this produces. -/
def sortByBool {α : Type} (le : α → α → Bool) : List α → List α
  | [] => []
  | x :: xs => insertSorted le x (sortByBool le xs)

/- sortedSet of defout_impl.cpp: the entities of a section sorted
ascending by getName() with operator< on std::string. -/
def sortByName {α : Type} (name : α → String) (l : List α) : List α :=
  sortByBool (fun a b => !(strLt (name b) (name a))) l

/- True when pat occurs as a contiguous substring of the character list.
Used to state which keyword tokens appear in emitted text. -/
def containsTokL : List Char → List Char → Bool
  | _, [] => false
  | pat, c :: rest => (pat.isPrefixOf (c :: rest)) || containsTokL pat rest

/- True when the token pat occurs somewhere in the emitted text s. -/
def containsTok (s pat : String) : Bool := containsTokL pat.toList s.toList

/-- Modelled from the spec: the class header defout_impl.h (which holds the
defdist helper and the _dist_factor field) is not under src/.  The spec says
every emitted coordinate is round(raw * outputUnits / dbUnitsPerMicron),
with _dist_factor = defUnits / dbUnitsPerMicron computed once per pass and
lround rounding half away from zero. -/
def defdist (defUnits dbu x : Int) : Int :=
  if 0 ≤ x then (2 * x * defUnits + dbu) / (2 * dbu)
  else -((2 * (-x) * defUnits + dbu) / (2 * dbu))

/- dbOrientType values. -/
inductive Orient where
  | R0
  | R90
  | R180
  | R270
  | MY
  | MYR90
  | MX
  | MXR90
deriving DecidableEq, Repr

/- defOrient of defout_impl.cpp: the DEF keyword for each orientation. -/
def defOrient : Orient → String
  | .R0 => "N"
  | .R90 => "W"
  | .R180 => "S"
  | .R270 => "E"
  | .MY => "FN"
  | .MYR90 => "FE"
  | .MX => "FS"
  | .MXR90 => "FW"

/- dbSourceType values. -/
inductive SourceType where
  | NONE
  | NETLIST
  | DIST
  | USER
  | TIMING
  | TEST
deriving DecidableEq, Repr

/- dbPlacementStatus values. -/
inductive PlacementStatus where
  | NONE
  | UNPLACED
  | SUGGESTED
  | PLACED
  | LOCKED
  | FIRM
  | COVER
deriving DecidableEq, Repr

/- The ObjType categories of the property registry (see the strcmp chain of
writePropertyDefinitions). -/
inductive ObjType where
  | COMPONENT
  | COMPONENTPIN
  | DESIGN
  | GROUP
  | NET
  | NONDEFAULTRULE
  | REGION
  | ROW
  | SPECIALNET
deriving DecidableEq, Repr

/- A property value attached to a database object.  dbProperty values are
string, int or double typed; writePropValue renders the value as text and
only the property name takes part in any emission decision, so the rendered
value text (the printf payload before the trailing space) is carried
directly. -/
structure DbProperty where
  name : String
  text : String
deriving DecidableEq, Repr

/- writePropValue: each dbProperty type case prints the rendered value
followed by one space. -/
def writePropValue (p : DbProperty) : String := p.text ++ " "

/- writeProperties: prints every property attached to the object as name,
space, value.  (The cnt local of the source is initialized to zero and
never incremented, so the wrap it guards never fires.) -/
def writeProperties (props : List DbProperty) : String :=
  String.join (props.map (fun p => p.name ++ " " ++ writePropValue p))

/- The per-category registry _prop_defs: for each category, the set of
property names recorded by the registration pass (defs_map[name] = true in
writePropertyDefinitions). -/
def PropDefs : Type := ObjType → List String

/- hasProperties: true when some property attached to the object has a name
found in the registry for the given category. -/
def hasProperties (defs : PropDefs) (props : List DbProperty) (t : ObjType) : Bool :=
  props.any (fun p => (defs t).contains p.name)

/- The emission pattern at every call site of hasProperties and
writeProperties (writeRows, writeNonDefaultRule, writeInst, writeRegions,
writeGroups, writeSNet, writeNet): a + PROPERTY clause followed by
writeProperties when hasProperties holds, nothing otherwise. -/
def propertyClause (defs : PropDefs) (props : List DbProperty) (t : ObjType) : String :=
  if hasProperties defs props t then " + PROPERTY " ++ writeProperties props else ""

/- One category child of the reserved __ADS_DEF_PROPERTY_DEFINITIONS__
property scanned by writePropertyDefinitions: the child's name is the
category string and its own children are the registered property
definitions. -/
structure PropDefCategory where
  category : String
  names : List String
deriving DecidableEq, Repr

/- The ObjType that writePropertyDefinitions assigns to a category name, if
any (the strcmp chain; an unrecognized category is skipped). -/
def objTypeOfName (s : String) : Option ObjType :=
  if s = "COMPONENT" then some .COMPONENT
  else if s = "COMPONENTPIN" then some .COMPONENTPIN
  else if s = "DESIGN" then some .DESIGN
  else if s = "GROUP" then some .GROUP
  else if s = "NET" then some .NET
  else if s = "NONDEFAULTRULE" then some .NONDEFAULTRULE
  else if s = "REGION" then some .REGION
  else if s = "ROW" then some .ROW
  else if s = "SPECIALNET" then some .SPECIALNET
  else none

/- The registry built by the registration pass of writePropertyDefinitions:
defs_map[obj_type] receives every property name under every category child
mapped to that obj_type (registration happens before the value-type switch,
so names of every value type are registered). -/
def registeredNames (cats : List PropDefCategory) (t : ObjType) : List String :=
  ((cats.filter (fun c => objTypeOfName c.category = some t)).map
    (fun c => c.names)).flatten

/- The writer configuration fixed for a whole pass: target version, the
naming options, the two unit constants of the distance conversion, and the
property registry built by writePropertyDefinitions. -/
structure Config where
  version : Version
  useNetInstIds : Bool
  useMasterIds : Bool
  useAlias : Bool
  defUnits : Int
  dbu : Int
  propDefs : PropDefs

/- defdist with the pass's unit constants. -/
def dd (cfg : Config) (x : Int) : Int := defdist cfg.defUnits cfg.dbu x

/- The layer-name choice made at every layer reference: the alias when
_use_alias is set and the layer has one, else the canonical name. -/
def layerNameOf (cfg : Config) (name : String) (aliasName : Option String) : String :=
  match aliasName with
  | some a => if cfg.useAlias then a else name
  | none => name

/- A region as seen from writeInst: its name and whether
getBoundaries() is non-empty. -/
structure RegionRef where
  name : String
  hasBoundaries : Bool
deriving DecidableEq, Repr

/- The fields of a dbInst read by writeInst. -/
structure InstData where
  id : Nat
  name : String
  masterName : String
  masterId : Nat
  source : SourceType
  x : Int
  y : Int
  orient : Orient
  status : PlacementStatus
  weight : Int
  region : Option RegionRef
  props : List DbProperty
  halo : Option (Int × Int × Int × Int)
deriving Repr

/- The + SOURCE switch of writeInst (NONE and TEST print nothing there). -/
def instSourceClause : SourceType → String
  | .NONE => ""
  | .NETLIST => " + SOURCE NETLIST"
  | .DIST => " + SOURCE DIST"
  | .USER => " + SOURCE USER"
  | .TIMING => " + SOURCE TIMING"
  | .TEST => ""

/- The placement-status switch of writeInst: SUGGESTED and PLACED print
PLACED, LOCKED and FIRM print FIXED, COVER prints COVER, with the location
and orientation; NONE prints nothing and UNPLACED omits the location. -/
def instStatusClause (status : PlacementStatus) (x y : Int) (orient : String) : String :=
  match status with
  | .NONE => ""
  | .UNPLACED => " + UNPLACED"
  | .SUGGESTED => " + PLACED ( " ++ toString x ++ " " ++ toString y ++ " ) " ++ orient
  | .PLACED => " + PLACED ( " ++ toString x ++ " " ++ toString y ++ " ) " ++ orient
  | .LOCKED => " + FIXED ( " ++ toString x ++ " " ++ toString y ++ " ) " ++ orient
  | .FIRM => " + FIXED ( " ++ toString x ++ " " ++ toString y ++ " ) " ++ orient
  | .COVER => " + COVER ( " ++ toString x ++ " " ++ toString y ++ " ) " ++ orient

/- writeInst: one COMPONENTS record.  Note the halo clause is guarded by
the C++ comparison (_version >= defout::DEF_5_6) on the descending
enumeration. -/
def writeInst (cfg : Config) (inst : InstData) : String :=
  (if cfg.useNetInstIds then
    if cfg.useMasterIds then
      "    - I" ++ toString inst.id ++ " M" ++ toString inst.masterId
    else
      "    - I" ++ toString inst.id ++ " " ++ inst.masterName
  else
    if cfg.useMasterIds then
      "    - " ++ inst.name ++ " M" ++ toString inst.masterId
    else
      "    - " ++ inst.name ++ " " ++ inst.masterName)
  ++ instSourceClause inst.source
  ++ instStatusClause inst.status (dd cfg inst.x) (dd cfg inst.y) (defOrient inst.orient)
  ++ (if inst.weight ≠ 0 then " + WEIGHT " ++ toString inst.weight else "")
  ++ (match inst.region with
      | some r => if r.hasBoundaries then " + REGION " ++ r.name else ""
      | none => "")
  ++ propertyClause cfg.propDefs inst.props .COMPONENT
  ++ (if vge cfg.version .DEF_5_6 then
        match inst.halo with
        | some (l, b, r, t) =>
          " + HALO " ++ toString (dd cfg l) ++ " " ++ toString (dd cfg b) ++ " "
            ++ toString (dd cfg r) ++ " " ++ toString (dd cfg t)
        | none => ""
      else "")
  ++ " ;\n"

/- The instance filter used by writeInsts, writeNet and writeBlockages: an
instance is skipped exactly when a selection map exists and the instance is
not marked in it. -/
def instPassesFilter (sel : Option (List Nat)) (id : Nat) : Bool :=
  match sel with
  | none => true
  | some s => s.contains id

/- The component records writeInsts emits: the instances sorted by name,
those passing the instance filter, each written by writeInst. -/
def componentRecords (cfg : Config) (insts : List InstData) (sel : Option (List Nat)) :
    List String :=
  (((sortByName (fun i => i.name) insts).filter
    (fun i => instPassesFilter sel i.id)).map (writeInst cfg))

/- writeInsts: the COMPONENTS section.  The declared count is the size of
the unfiltered instance set; the records are filtered. -/
def writeInsts (cfg : Config) (insts : List InstData) (sel : Option (List Nat)) : String :=
  "COMPONENTS " ++ toString insts.length ++ " ;\n"
    ++ String.join (componentRecords cfg insts sel)
    ++ "END COMPONENTS\n"

/- The identity of the net a pin connects to, as read by writeBTerm and
writeBPin (getId for the compact naming mode, getName otherwise). -/
structure NetRef where
  id : Nat
  name : String
deriving DecidableEq, Repr

/- The fields of one dbBox of a dbBPin read by writeBPin. -/
structure BPinBox where
  layerName : String
  layerAlias : Option String
  mask : Nat
  x1 : Int
  y1 : Int
  x2 : Int
  y2 : Int
deriving Repr

/- The fields of a dbBPin read by writeBPin: its boxes, placement status
and the optional effective-width / min-spacing annotations. -/
structure BPin where
  boxes : List BPinBox
  status : PlacementStatus
  effectiveWidth : Option Int
  minSpacing : Option Int
deriving Repr

/- The reference point of a pin record: zero when the pin has no box, else
the converted lower-left corner of the first box plus the converted half
extents (the isFirst branch of the box loop of writeBPin). -/
def bpinRefPoint (cfg : Config) (boxes : List BPinBox) : Int × Int :=
  match boxes with
  | [] => (0, 0)
  | b :: _ =>
    (dd cfg b.x1 + dd cfg ((b.x2 - b.x1) / 2), dd cfg b.y1 + dd cfg ((b.y2 - b.y1) / 2))

/- One + LAYER item of a pin record (the body of the box loop of
writeBPin), with the DEF_5_5 flat form, the DEF_5_8 MASK suffix and the
DESIGNRULEWIDTH / SPACING variants. -/
def bpinBoxText (cfg : Config) (x y : Int) (effectiveWidth minSpacing : Option Int)
    (b : BPinBox) : String :=
  let lname := layerNameOf cfg b.layerName b.layerAlias
  let xMin := dd cfg b.x1 - x
  let yMin := dd cfg b.y1 - y
  let xMax := dd cfg b.x2 - x
  let yMax := dd cfg b.y2 - y
  let coords := " ( " ++ toString xMin ++ " " ++ toString yMin ++ " ) ( "
    ++ toString xMax ++ " " ++ toString yMax ++ " )"
  "\n       "
    ++ (if cfg.version = .DEF_5_5 then
          " + LAYER " ++ lname ++ coords
        else
          let layer_name :=
            if cfg.version = .DEF_5_8 ∧ b.mask ≠ 0 then
              lname ++ " MASK " ++ toString b.mask
            else lname
          match effectiveWidth with
          | some w => " + LAYER " ++ layer_name ++ " DESIGNRULEWIDTH " ++ toString (dd cfg w)
              ++ coords
          | none =>
            match minSpacing with
            | some s => " + LAYER " ++ layer_name ++ " SPACING " ++ toString (dd cfg s)
                ++ coords
            | none => " + LAYER " ++ layer_name ++ coords)

/- The placement-status trailer of a pin record (orientation is always
printed as N there). -/
def bpinStatusClause (status : PlacementStatus) (x y : Int) : String :=
  match status with
  | .NONE => ""
  | .UNPLACED => ""
  | .SUGGESTED => "\n        + PLACED ( " ++ toString x ++ " " ++ toString y ++ " ) N"
  | .PLACED => "\n        + PLACED ( " ++ toString x ++ " " ++ toString y ++ " ) N"
  | .LOCKED => "\n        + FIXED ( " ++ toString x ++ " " ++ toString y ++ " ) N"
  | .FIRM => "\n        + FIXED ( " ++ toString x ++ " " ++ toString y ++ " ) N"
  | .COVER => "\n        + COVER ( " ++ toString x ++ " " ++ toString y ++ " ) N"

/- The SUPPLYSENSITIVITY / GROUNDSENSITIVITY pair shared by writeBTerm and
writeBPin, guarded at both call sites by the C++ comparison
(_version >= defout::DEF_5_6) on the descending enumeration. -/
def sensitivityClause (cfg : Config) (supplyPin groundPin : Option String) : String :=
  if vge cfg.version .DEF_5_6 then
    (match supplyPin with
     | some p => " + SUPPLYSENSITIVITY " ++ p
     | none => "")
    ++ (match groundPin with
        | some p => " + GROUNDSENSITIVITY " ++ p
        | none => "")
  else ""

/- writeBPin: one physical placement of a design pin, numbered cnt within
its pin record.  The leading header is printed for the first placement, and
again for every placement when (_version <= defout::DEF_5_6) holds in the
C++ enum order; the + PORT keyword is guarded by
(_version > defout::DEF_5_6). -/
def writeBPin (cfg : Config) (bname : String) (net : NetRef) (special : Bool)
    (ioType sigType : String) (supplyPin groundPin : Option String)
    (bpin : BPin) (cnt : Nat) : String :=
  (if cnt = 0 ∨ vle cfg.version .DEF_5_6 then
    (if cnt = 0 then "    - " ++ bname else "    - " ++ bname ++ ".extra" ++ toString cnt)
      ++ (if cfg.useNetInstIds then " + NET N" ++ toString net.id else " + NET " ++ net.name)
      ++ (if special then " + SPECIAL" else "")
      ++ " + DIRECTION " ++ ioType
      ++ sensitivityClause cfg supplyPin groundPin
      ++ " + USE " ++ sigType
   else "")
  ++ "\n      "
  ++ (if vgt cfg.version .DEF_5_6 then "+ PORT" else "")
  ++ (let p := bpinRefPoint cfg bpin.boxes
      String.join (bpin.boxes.map (bpinBoxText cfg p.1 p.2 bpin.effectiveWidth bpin.minSpacing))
        ++ bpinStatusClause bpin.status p.1 p.2)

/- The fields of a dbBTerm read by writeBTerm and writeBTerms. -/
structure BTermData where
  name : String
  net : Option NetRef
  special : Bool
  ioType : String
  sigType : String
  supplyPin : Option String
  groundPin : Option String
  bpins : List BPin
deriving Repr

/- writeBTerm: one PINS record together with the warnings it logs.  A pin
with a net and placements writes one writeBPin block per placement then the
closing semicolon; a pin with a net and no placement writes the flat
one-line record; a pin without a net writes nothing and logs the skip
warning (message 173). -/
def writeBTerm (cfg : Config) (bt : BTermData) : String × List String :=
  match bt.net with
  | some net =>
    if bt.bpins.length ≠ 0 then
      (String.join (bt.bpins.enum.map
        (fun ip => writeBPin cfg bt.name net bt.special bt.ioType bt.sigType
          bt.supplyPin bt.groundPin ip.2 ip.1))
        ++ " ;\n", [])
    else
      ("    - " ++ bt.name
        ++ (if cfg.useNetInstIds then " + NET N" ++ toString net.id else " + NET " ++ net.name)
        ++ (if bt.special then " + SPECIAL" else "")
        ++ " + DIRECTION " ++ bt.ioType
        ++ sensitivityClause cfg bt.supplyPin bt.groundPin
        ++ " + USE " ++ bt.sigType
        ++ " ;\n", [])
  | none => ("", ["warning: pin " ++ bt.name ++ " skipped because it has no net"])

/- The pin filter of writeBTerms (and writeBTerms_Pl): a pin is skipped
exactly when it has a net, a net-selection map exists, and its net is not
marked; a pin without a net always passes. -/
def pinPassesFilter (sel : Option (List Nat)) (bt : BTermData) : Bool :=
  match bt.net, sel with
  | some n, some m => m.contains n.id
  | _, _ => true

/- The count that writeBTerms declares in the PINS header: the pins passing
the filter, whether or not they have a net. -/
def declaredPinCount (bterms : List BTermData) (sel : Option (List Nat)) : Nat :=
  (bterms.filter (pinPassesFilter sel)).length

/- The pin records writeBTerms writes: the pins sorted by name, filtered,
each passed to writeBTerm. -/
def pinRecords (cfg : Config) (bterms : List BTermData) (sel : Option (List Nat)) :
    List (String × List String) :=
  ((sortByName (fun b => b.name) bterms).filter (pinPassesFilter sel)).map (writeBTerm cfg)

/- The number of pin records actually present between the PINS header and
END PINS: the writeBTerm outputs that are non-empty. -/
def emittedPinRecordCount (cfg : Config) (bterms : List BTermData)
    (sel : Option (List Nat)) : Nat :=
  ((pinRecords cfg bterms sel).filter (fun r => r.1 ≠ "")).length

/- writeBTerms: the PINS section and the warnings logged while writing it.
An empty pin set writes nothing at all. -/
def writeBTerms (cfg : Config) (bterms : List BTermData) (sel : Option (List Nat)) :
    String × List String :=
  if bterms.length = 0 then ("", [])
  else
    ("PINS " ++ toString (declaredPinCount bterms sel) ++ " ;\n"
      ++ String.join ((pinRecords cfg bterms sel).map (fun r => r.1))
      ++ "END PINS\n",
     ((pinRecords cfg bterms sel).map (fun r => r.2)).flatten)

/- The VERSION literal printed by writeBlock for each target version (the
if-else-if chain at the top of the header block). -/
def versionLiteral : Version → String
  | .DEF_5_3 => "VERSION 5.3 ;\n"
  | .DEF_5_4 => "VERSION 5.4 ;\n"
  | .DEF_5_5 => "VERSION 5.5 ;\n"
  | .DEF_5_6 => "VERSION 5.6 ;\n"
  | .DEF_5_7 => "VERSION 5.7 ;\n"
  | .DEF_5_8 => "VERSION 5.8 ;\n"

/- The header block of writeBlock: version literal, the NAMESCASESENSITIVE
line guarded by the C++ comparison (_version < defout::DEF_5_6) on the
descending enumeration, the divider and bus-bit delimiters with their
defaults, the design name and the distance-unit declaration. -/
def writeBlockHeader (v : Version) (hd leftBus rightBus : Char) (designName : String)
    (defUnits : Int) : String :=
  versionLiteral v
    ++ (if vlt v .DEF_5_6 then "NAMESCASESENSITIVE ON ;\n" else "")
    ++ (let hd' := if hd.toNat = 0 then '|' else hd
        "DIVIDERCHAR \"" ++ String.singleton hd' ++ "\" ;\n")
    ++ (let lb := if leftBus.toNat = 0 ∨ rightBus.toNat = 0 then '[' else leftBus
        let rb := if leftBus.toNat = 0 ∨ rightBus.toNat = 0 then ']' else rightBus
        "BUSBITCHARS \"" ++ String.singleton lb ++ String.singleton rb ++ "\" ;\n")
    ++ "DESIGN " ++ designName ++ " ;\n"
    ++ "UNITS DISTANCE MICRONS " ++ toString defUnits ++ " ;\n"

/- writeBlock after the selection pass, as a function of whether the
destination could be opened (openOk models FileHandler.getFile() returning
a non-null stream).  On open failure the warning (message 172) is logged
and false is returned with nothing written.  On success the header block,
the section writers' text (abstracted here as the sections argument, which
the open-failure path never reaches) and the END DESIGN trailer are
written and true is returned.  Result: (returned bool, logged warnings,
text written to the destination). -/
def writeBlock (openOk : Bool) (defFile : String) (v : Version)
    (hd leftBus rightBus : Char) (designName : String) (defUnits : Int)
    (sections : String) : Bool × List String × String :=
  if !openOk then
    (false, ["Cannot open DEF file (" ++ defFile ++ ") for writing"], "")
  else
    (true, [],
      writeBlockHeader v hd leftBus rightBus designName defUnits
        ++ sections ++ "END DESIGN\n")

/- writeBlock_Pl after the selection pass.  The source performs no null
check on the stream it got back: it passes the stream to fstat, setvbuf and
fprintf unconditionally (undefined behavior of the C library when the open
failed) and returns true on every path, logging nothing.  The placement
body (writeBTerms_Pl, the CELLS line, writeInsts_Pl) is abstracted as the
two section arguments, written around the CELLS line as in the source. -/
def writeBlock_Pl (openOk : Bool) (defFile : String) (plBTerms plInsts : String) :
    Bool × List String × String :=
  (true, [], plBTerms ++ "CELLS\n" ++ plInsts)

/- The fields of one selected net read by the selection builder at the top
of writeBlock (and writeBlock_Pl): whether the net is special, whether it
is Mark_1ed, and the instances its instance terminals connect to. -/
structure SelNet where
  id : Nat
  special : Bool
  mark1 : Bool
  itermInsts : List Nat
deriving DecidableEq, Repr

/- The net-selection map built by writeBlock: absent when the selection
list is empty, else the marks of exactly the selected nets. -/
def buildNetMap (snets : List SelNet) : Option (List Nat) :=
  if snets.isEmpty then none else some (snets.map (fun n => n.id))

/- One iteration of the net loop of the selection builder acting on the
lazily created instance map: a special or Mark_1ed net leaves the map
untouched; any other selected net forces the map to exist and marks every
instance with a terminal on the net. -/
def markNetInsts (m : Option (List Nat)) (n : SelNet) : Option (List Nat) :=
  if n.special ∨ n.mark1 then m
  else some (m.getD [] ++ n.itermInsts)

/- The instance-selection map built by writeBlock: the net loop marks the
instances of every selected non-special non-Mark_1ed net, then the
instance loop forces the map to exist and marks every explicitly selected
instance; the map stays absent when neither loop created it. -/
def buildInstMap (snets : List SelNet) (sinsts : List Nat) : Option (List Nat) :=
  let m := snets.foldl markNetInsts none
  if sinsts.isEmpty then m else some (m.getD [] ++ sinsts)

/- The net filter used by the section writers: a net is skipped exactly
when a net-selection map exists and the net is not marked in it. -/
def netPassesFilter (sel : Option (List Nat)) (id : Nat) : Bool :=
  match sel with
  | none => true
  | some s => s.contains id

/- dbSBox direction classifiers. -/
inductive SBoxDir where
  | UNDEFINED
  | HORIZONTAL
  | VERTICAL
  | OCTILINEAR
deriving DecidableEq, Repr

/- The fields of a rectangle dbSBox read by writeSpecialPath: layer,
bounding box, layer mask, wire-shape type (none for the NONE value, else
its keyword), the direction classifier, and the octagon data read in the
OCTILINEAR case. -/
structure SBoxData where
  layerName : String
  layerAlias : Option String
  x1 : Int
  y1 : Int
  x2 : Int
  y2 : Int
  mask : Nat
  shapeType : Option String
  dir : SBoxDir
  octx1 : Int
  octy1 : Int
  octx2 : Int
  octy2 : Int
  octWidth : Nat
deriving Repr

/- The direction switch of writeSpecialPath, recovering centerline and
width from the rectangle: spans dx and dy are unsigned; UNDEFINED picks the
axis to collapse by parity (both even: the shorter span; exactly one even:
that axis; neither: the fatal ZException), HORIZONTAL collapses y,
VERTICAL collapses x, OCTILINEAR reads the explicit octagon. -/
def specialPathGeom (b : SBoxData) : Except String (Int × Int × Int × Int × Nat) :=
  let dx : Nat := (b.x2 - b.x1).toNat
  let dy : Nat := (b.y2 - b.y1).toNat
  match b.dir with
  | .UNDEFINED =>
    let dxEven := dx % 2 = 0
    let dyEven := dy % 2 = 0
    if dxEven ∧ dyEven then
      if dy < dx then
        let dw := dy / 2
        .ok (b.x1, b.y1 + (dw : Int), b.x2, b.y2 - (dw : Int), dy)
      else
        let dw := dx / 2
        .ok (b.x1 + (dw : Int), b.y1, b.x2 - (dw : Int), b.y2, dx)
    else if dxEven then
      let dw := dx / 2
      .ok (b.x1 + (dw : Int), b.y1, b.x2 - (dw : Int), b.y2, dx)
    else if dyEven then
      let dw := dy / 2
      .ok (b.x1, b.y1 + (dw : Int), b.x2, b.y2 - (dw : Int), dy)
    else
      .error "odd dimension in both directions"
  | .HORIZONTAL =>
    let dw := dy / 2
    .ok (b.x1, b.y1 + (dw : Int), b.x2, b.y2 - (dw : Int), dy)
  | .VERTICAL =>
    let dw := dx / 2
    .ok (b.x1 + (dw : Int), b.y1, b.x2 - (dw : Int), b.y2, dx)
  | .OCTILINEAR =>
    .ok (b.octx1, b.octy1, b.octx2, b.octy2, b.octWidth)

/- writeSpecialPath: the recovered centerline and width formatted with the
four mask / shape-type variants of the trailing fprintf; the fatal
ZException of the geometry switch propagates. -/
def writeSpecialPath (cfg : Config) (b : SBoxData) : Except String String :=
  match specialPathGeom b with
  | .error e => .error e
  | .ok (x1, y1, x2, y2, w) =>
    let ln := layerNameOf cfg b.layerName b.layerAlias
    let wtxt := toString (dd cfg (w : Int))
    let p1 := "( " ++ toString (dd cfg x1) ++ " " ++ toString (dd cfg y1) ++ " )"
    let p2 := "( " ++ toString (dd cfg x2) ++ " " ++ toString (dd cfg y2) ++ " )"
    .ok (if b.mask ≠ 0 then
      match b.shapeType with
      | none => " " ++ ln ++ " " ++ wtxt ++ " " ++ p1 ++ " MASK " ++ toString b.mask
          ++ " " ++ p2
      | some ty => " " ++ ln ++ " " ++ wtxt ++ " + SHAPE " ++ ty ++ " + MASK "
          ++ toString b.mask ++ " + " ++ p1 ++ " " ++ p2
    else
      match b.shapeType with
      | none => " " ++ ln ++ " " ++ wtxt ++ " " ++ p1 ++ " " ++ p2
      | some ty => " " ++ ln ++ " " ++ wtxt ++ " + SHAPE " ++ ty ++ " " ++ p1 ++ " " ++ p2)

/- dbWireType values. -/
inductive WireType where
  | NONE
  | COVER
  | FIXED
  | ROUTED
  | SHIELD
  | NOSHIELD
deriving DecidableEq, Repr

/- getString() of dbWireType. -/
def wtString : WireType → String
  | .NONE => "NONE"
  | .COVER => "COVER"
  | .FIXED => "FIXED"
  | .ROUTED => "ROUTED"
  | .SHIELD => "SHIELD"
  | .NOSHIELD => "NOSHIELD"

/- One decoded event of dbWireDecoder as consumed by writeWire.  PATH,
SHORT, VWIRE and JUNCTION enter the same case of the switch, so one
constructor carries them; the getColor() / getViaColor() answers accompany
the events that read them.  END_DECODE is the end of the event list. -/
inductive WOp where
  | pathStart (wt : WireType) (layerName : String) (layerAlias : Option String)
  | point (x y : Int) (color : Option Nat)
  | pointExt (x y ext : Int)
  | viaOp (name : String) (rotated : Bool) (baseName : String) (orient : Orient)
      (viacolor : Option (Nat × Nat × Nat))
  | techVia (name : String) (viacolor : Option (Nat × Nat × Nat))
  | itermOp
  | btermOp
  | ruleOp (ruleName : String)
  | rectOp (dx1 dy1 dx2 dy2 : Int) (color : Option Nat)
deriving Repr

/- The running state of writeWire: previous wire type, point counter of the
current path, path counter, and the previous converted point (seeded with
std::numeric_limits of int max). -/
structure WireState where
  prevWireType : WireType
  pointCnt : Nat
  pathCnt : Nat
  prevX : Int
  prevY : Int
deriving DecidableEq, Repr

/- The initial state of the decoding loop of writeWire. -/
def initWireState : WireState :=
  { prevWireType := .NONE, pointCnt := 0, pathCnt := 0,
    prevX := 2147483647, prevY := 2147483647 }

/- The line break inserted before a point, via or rect when the incremented
point counter is a multiple of eight. -/
def wireBreak (pointCnt : Nat) : String :=
  if pointCnt % 8 = 0 then "\n    " else ""

/- The MASK annotation attached to a point: present only when the
incremented point counter is even and the decoder reports a color. -/
def pointMaskText (pointCnt : Nat) (color : Option Nat) : String :=
  if pointCnt % 2 = 0 then
    match color with
    | some c => "MASK " ++ toString c
    | none => ""
  else ""

/- The MASK prefix of a via (three mask digits), guarded by the C++
comparison (_version >= defout::DEF_5_8) on the descending enumeration
(that comparison is identically true). -/
def viaMaskText (cfg : Config) (viacolor : Option (Nat × Nat × Nat)) : String :=
  if vge cfg.version .DEF_5_8 then
    match viacolor with
    | some c => "MASK " ++ toString c.1 ++ toString c.2.1 ++ toString c.2.2 ++ " "
    | none => ""
  else ""

/- One iteration of the switch of writeWire: the state after the event and
the text the event printed.  ndr is _non_default_rule (set from the net by
writeNet before the loop and never reassigned inside it), netFixed is
whether the net's own wire type is FIXED, and peekIsRule is whether
decode.peek() answers RULE. -/
def wireStep (cfg : Config) (ndr : Option String) (netFixed : Bool)
    (st : WireState) (op : WOp) (peekIsRule : Bool) : WireState × String :=
  match op with
  | .pathStart wt lname aliasName =>
    let layer := layerNameOf cfg lname aliasName
    let wire_type := if netFixed then .FIXED else wt
    let head :=
      if st.pathCnt = 0 ∨ wire_type ≠ st.prevWireType then
        "\n      + " ++ wtString wire_type ++ " " ++ layer
      else
        "\n      NEW " ++ layer
    let taper := if ndr.isSome ∧ ¬peekIsRule then " TAPER" else ""
    ({ st with prevWireType := wire_type, pointCnt := 0, pathCnt := st.pathCnt + 1 },
     head ++ taper)
  | .point x y color =>
    let x := dd cfg x
    let y := dd cfg y
    let pc := st.pointCnt + 1
    let mask := pointMaskText pc color
    let txt :=
      if pc = 1 then
        " ( " ++ toString x ++ " " ++ toString y ++ " )"
      else if x = st.prevX then
        mask ++ " ( * " ++ toString y ++ " )"
      else if y = st.prevY then
        mask ++ " ( " ++ toString x ++ " * )"
      else ""
    ({ st with pointCnt := pc, prevX := x, prevY := y }, wireBreak pc ++ txt)
  | .pointExt x y ext =>
    let x := dd cfg x
    let y := dd cfg y
    let ext := dd cfg ext
    let pc := st.pointCnt + 1
    let txt :=
      if pc = 1 then
        " ( " ++ toString x ++ " " ++ toString y ++ " " ++ toString ext ++ " )"
      else if x = st.prevX ∧ y = st.prevY then
        " ( * * " ++ toString ext ++ " )"
      else if x = st.prevX then
        " ( * " ++ toString y ++ " " ++ toString ext ++ " )"
      else if y = st.prevY then
        " ( " ++ toString x ++ " * " ++ toString ext ++ " )"
      else ""
    ({ st with pointCnt := pc, prevX := x, prevY := y }, wireBreak pc ++ txt)
  | .viaOp name rotated baseName orient viacolor =>
    let pc := st.pointCnt + 1
    let vmask := viaMaskText cfg viacolor
    let txt :=
      if vge cfg.version .DEF_5_6 ∧ rotated then
        " " ++ vmask ++ baseName ++ " " ++ defOrient orient
      else
        " " ++ vmask ++ name
    ({ st with pointCnt := pc }, wireBreak pc ++ txt)
  | .techVia name viacolor =>
    let pc := st.pointCnt + 1
    let vmask := viaMaskText cfg viacolor
    ({ st with pointCnt := pc }, wireBreak pc ++ " " ++ vmask ++ name)
  | .itermOp => (st, "")
  | .btermOp => (st, "")
  | .ruleOp r =>
    if st.pointCnt = 0 then
      match ndr with
      | none => (st, " TAPERRULE " ++ r ++ " ")
      | some a => if a ≠ r then (st, " TAPERRULE " ++ r ++ " ") else (st, "")
    else (st, "")
  | .rectOp dx1 dy1 dx2 dy2 color =>
    let pc := st.pointCnt + 1
    let d1 := dd cfg dx1
    let d2 := dd cfg dy1
    let d3 := dd cfg dx2
    let d4 := dd cfg dy2
    let txt :=
      match color with
      | some c => " RECT MASK " ++ toString c ++ " ( " ++ toString d1 ++ " " ++ toString d2
          ++ " " ++ toString d3 ++ " " ++ toString d4 ++ " ) "
      | none => " RECT ( " ++ toString d1 ++ " " ++ toString d2 ++ " " ++ toString d3
          ++ " " ++ toString d4 ++ " ) "
    ({ st with pointCnt := pc }, wireBreak pc ++ txt)

/- The decoding loop of writeWire threading the state through the event
list; peekIsRule is read from the head of the remaining events
(END_DECODE, the end of the list, is not RULE). -/
def writeWireGo (cfg : Config) (ndr : Option String) (netFixed : Bool) :
    WireState → List WOp → String
  | _, [] => ""
  | st, op :: rest =>
    let peek := match rest with
      | .ruleOp _ :: _ => true
      | _ => false
    let q := wireStep cfg ndr netFixed st op peek
    q.2 ++ writeWireGo cfg ndr netFixed q.1 rest

/- writeWire: the whole event stream decoded from the initial state. -/
def writeWire (cfg : Config) (ndr : Option String) (netFixed : Bool) (ops : List WOp) :
    String :=
  writeWireGo cfg ndr netFixed initWireState ops

/- A pass configuration with canonical naming, no aliasing, an identity
distance conversion and an empty property registry, at a given target
version. -/
def cfgV (v : Version) : Config :=
  { version := v, useNetInstIds := false, useMasterIds := false, useAlias := false,
    defUnits := 1, dbu := 1, propDefs := fun _ => [] }

/- A placed instance carrying a halo box. -/
def haloInst : InstData :=
  { id := 7, name := "i0", masterName := "M0", masterId := 1, source := .NONE,
    x := 0, y := 0, orient := .R0, status := .PLACED, weight := 0, region := none,
    props := [], halo := some (1, 2, 3, 4) }

/- A design pin with a net, no placements, and both sensitivity pins set. -/
def sensBTerm : BTermData :=
  { name := "vddq", net := some { id := 3, name := "n3" }, special := false,
    ioType := "INPUT", sigType := "SIGNAL", supplyPin := some "vdd",
    groundPin := some "gnd", bpins := [] }

/- A placed instance named a, of master M. -/
def instA : InstData :=
  { id := 1, name := "a", masterName := "M", masterId := 0, source := .NONE,
    x := 0, y := 0, orient := .R0, status := .PLACED, weight := 0, region := none,
    props := [], halo := none }

/- A placed instance named b, of master M. -/
def instB : InstData :=
  { id := 2, name := "b", masterName := "M", masterId := 0, source := .NONE,
    x := 0, y := 0, orient := .R0, status := .PLACED, weight := 0, region := none,
    props := [], halo := none }

/- A design pin that has no net. -/
def noNetPin : BTermData :=
  { name := "p1", net := none, special := false, ioType := "INPUT",
    sigType := "SIGNAL", supplyPin := none, groundPin := none, bpins := [] }

/- A property-definitions pass registering only FOO for the net category. -/
def c3Defs : List PropDefCategory := [{ category := "NET", names := ["FOO"] }]

/- A net carrying a registered property FOO and an unregistered one BAR. -/
def c3Props : List DbProperty :=
  [{ name := "FOO", text := "1" }, { name := "BAR", text := "2" }]

/- The event stream of the three-point example of the spec: one path start
on layer M1 followed by the points (0,0), (0,500), (300,500). -/
def exampleOps : List WOp :=
  [.pathStart .ROUTED "M1" none, .point 0 0 none, .point 0 500 none,
   .point 300 500 none]

/- A selected ordinary net with terminals on instances 10 and 11. -/
def demoSelNet : SelNet :=
  { id := 5, special := false, mark1 := false, itermInsts := [10, 11] }

/- An UNDEFINED-direction special-net rectangle spanning (0,0)-(2,5). -/
def demoUndefBox : SBoxData :=
  { layerName := "M1", layerAlias := none, x1 := 0, y1 := 0, x2 := 2, y2 := 5,
    mask := 0, shapeType := none, dir := .UNDEFINED, octx1 := 0, octy1 := 0,
    octx2 := 0, octy2 := 0, octWidth := 0 }

/- True exactly on the error branch of an Except value (a raised
ZException of the writer). -/
def isErrExcept {α : Type} : Except String α → Bool
  | .error _ => true
  | .ok _ => false

/- Sorting is a permutation. -/
theorem sortByBool_perm {α : Type} (le : α → α → Bool) (l : List α) :
    (sortByBool le l).Perm l := by
  induction l with
  | nil => rfl
  | cons x xs ih =>
    have h : ∀ m : List α, (insertSorted le x m).Perm (x :: m) := by
      intro m
      induction m with
      | nil => rfl
      | cons y ys ihm =>
        simp only [insertSorted]
        split
        · rfl
        · exact ((ihm.cons y).trans (List.Perm.swap x y ys))
    exact (h (sortByBool le xs)).trans (ih.cons x)

/- Sorting preserves length. -/
theorem length_sortByName {α : Type} (name : α → String) (l : List α) :
    (sortByName name l).length = l.length :=
  (sortByBool_perm _ l).length_eq

/- A string of positive length is not the empty string. -/
theorem ne_empty_of_length_pos (s : String) (h : 0 < s.length) : s ≠ "" := by
  intro he
  rw [he] at h
  simp at h

/- A pin with a net always yields a non-empty record text from
writeBTerm. -/
theorem writeBTerm_ne_empty (cfg : Config) (b : BTermData)
    (h : b.net.isSome = true) : (writeBTerm cfg b).1 ≠ "" := by
  rcases hb : b.net with _ | net
  · rw [hb] at h
    simp at h
  · simp only [writeBTerm, hb]
    split
    · apply ne_empty_of_length_pos
      simp only [String.length_append]
      have h3 : (" ;\n" : String).length = 3 := rfl
      omega
    · apply ne_empty_of_length_pos
      simp only [String.length_append]
      have h3 : (" ;\n" : String).length = 3 := rfl
      have h6 : ("    - " : String).length = 6 := rfl
      omega

/-- C1: the claim says the version-gated tokens HALO, SUPPLYSENSITIVITY,
GROUNDSENSITIVITY and the rotated-via / via MASK syntax never appear for
target versions below DEF 5.6 and do appear (data permitting) at or above
the introducing version.  The code does the opposite: defout.h declares
enum Version in descending order (DEF_5_8 = 0 through DEF_5_3 = 5), so the
guard (_version >= defout::DEF_5_6) of writeInst, writeBTerm and the
rotated-via case of writeWire holds exactly for versions 5.6 and BELOW,
and (_version >= defout::DEF_5_8) guarding the via MASK prefix holds for
every version.  Evaluating the embedded writers: at version 5.3 an
instance halo, a pin supply sensitivity and the via MASK and rotated-via
orientation syntax are all emitted, and at versions 5.7 / 5.8 the halo and
sensitivity tokens are omitted. -/
theorem claim_C1 :
    containsTok (writeInst (cfgV .DEF_5_3) haloInst) "HALO" = true
    ∧ containsTok (writeInst (cfgV .DEF_5_8) haloInst) "HALO" = false
    ∧ containsTok (writeBTerm (cfgV .DEF_5_4) sensBTerm).1 "SUPPLYSENSITIVITY" = true
    ∧ containsTok (writeBTerm (cfgV .DEF_5_7) sensBTerm).1 "SUPPLYSENSITIVITY" = false
    ∧ containsTok (writeBTerm (cfgV .DEF_5_7) sensBTerm).1 "GROUNDSENSITIVITY" = false
    ∧ (wireStep (cfgV .DEF_5_3) none false initWireState
        (.viaOp "v1" true "vbase" .R90 (some (1, 2, 3))) false).2
        = " MASK 123 vbase W" := by
  refine ⟨by decide, by decide, by decide, by decide, by decide, by decide⟩

/-- C4: the claim says both writeBlock and writeBlock_Pl log a warning and
return false, writing nothing, when the destination cannot be opened.
writeBlock does exactly that (message 172).  writeBlock_Pl has no null
check at all: it hands the stream to fstat, setvbuf and fprintf regardless
and returns true on every path, logging nothing, so the failure result the
claim requires is never produced. -/
theorem claim_C4 :
    writeBlock false "x.def" .DEF_5_8 '|' '[' ']' "top" 100 "S"
      = (false, ["Cannot open DEF file (x.def) for writing"], "")
    ∧ (writeBlock_Pl false "x.def" "B" "I").1 = true
    ∧ (writeBlock_Pl false "x.def" "B" "I").2.1 = [] := by
  refine ⟨by decide, by decide, by decide⟩

/-- C6: the claim says NAMESCASESENSITIVE ON is printed for versions below
DEF 5.6 and absent at or above it.  Because enum Version descends
(DEF_5_8 = 0 through DEF_5_3 = 5), the guard (_version < defout::DEF_5_6)
holds exactly for DEF_5_8 and DEF_5_7, so the header of the embedded
writeBlock omits the line at versions 5.3 and 5.5 and prints it at
versions 5.7 and 5.8 - the exact inverse of the claim. -/
theorem claim_C6 :
    containsTok (writeBlockHeader .DEF_5_3 '|' '[' ']' "top" 1000)
      "NAMESCASESENSITIVE" = false
    ∧ containsTok (writeBlockHeader .DEF_5_5 '|' '[' ']' "top" 1000)
      "NAMESCASESENSITIVE" = false
    ∧ containsTok (writeBlockHeader .DEF_5_7 '|' '[' ']' "top" 1000)
      "NAMESCASESENSITIVE" = true
    ∧ containsTok (writeBlockHeader .DEF_5_8 '|' '[' ']' "top" 1000)
      "NAMESCASESENSITIVE" = true := by
  refine ⟨by decide, by decide, by decide, by decide⟩

/- Sorting by name is a permutation. -/
theorem sortByName_perm {α : Type} (name : α → String) (l : List α) :
    (sortByName name l).Perm l :=
  sortByBool_perm _ l

/-- C2: the claim (counts equal emitted records; COMPONENTS counted after
instance filtering; a netless pin not counted) fails on the code at two
places, shown by claim_C2_counterexample.  This is the amended statement
that does hold: the COMPONENTS header declares the unfiltered instance
count, so it matches the emitted records exactly when no instance filter
is active; and the PINS header counts the pins passing the net filter
including netless ones, so it matches the emitted records (under any
selection) exactly when every pin has a net. -/
theorem claim_C2 (cfg : Config) (insts : List InstData) (bterms : List BTermData)
    (sel : Option (List Nat)) (hnet : ∀ b ∈ bterms, b.net.isSome = true) :
    (componentRecords cfg insts none).length = insts.length
    ∧ declaredPinCount bterms sel = emittedPinRecordCount cfg bterms sel := by
  constructor
  · unfold componentRecords
    rw [List.length_map]
    have hf : ((sortByName (fun i => i.name) insts).filter
        (fun i => instPassesFilter none i.id)) = sortByName (fun i => i.name) insts :=
      List.filter_eq_self.mpr (fun a _ => rfl)
    rw [hf, length_sortByName]
  · unfold emittedPinRecordCount declaredPinCount pinRecords
    have hall : ∀ r ∈ ((sortByName (fun b => b.name) bterms).filter
        (pinPassesFilter sel)).map (writeBTerm cfg), r.1 ≠ "" := by
      intro r hr
      rcases List.mem_map.mp hr with ⟨b, hbmem, hb⟩
      have hbb : b ∈ bterms :=
        (sortByName_perm (fun b => b.name) bterms).mem_iff.mp
          (List.mem_of_mem_filter hbmem)
      exact hb ▸ writeBTerm_ne_empty cfg b (hnet b hbb)
    rw [List.filter_eq_self.mpr (fun a ha => decide_eq_true (hall a ha))]
    rw [List.length_map]
    exact (((sortByName_perm (fun b => b.name) bterms).filter
      (pinPassesFilter sel)).length_eq).symm

/-- C2 counterexample: with two instances and an instance selection
admitting only the first, writeInsts declares COMPONENTS 2 but emits one
record; with a single netless pin and no selection, writeBTerms declares
PINS 1 but emits zero records (the pin is counted, then skipped with the
warning), refuting both halves of the claim as stated. -/
theorem claim_C2_counterexample :
    writeInsts (cfgV .DEF_5_8) [instA, instB] (some [1])
      = "COMPONENTS 2 ;\n    - a M + PLACED ( 0 0 ) N ;\nEND COMPONENTS\n"
    ∧ (componentRecords (cfgV .DEF_5_8) [instA, instB] (some [1])).length = 1
    ∧ (writeBTerms (cfgV .DEF_5_8) [noNetPin] none).1 = "PINS 1 ;\nEND PINS\n"
    ∧ declaredPinCount [noNetPin] none = 1
    ∧ emittedPinRecordCount (cfgV .DEF_5_8) [noNetPin] none = 0 := by
  refine ⟨by decide, by decide, by decide, by decide, by decide⟩

/-- C2 witness: the amended statement applied to two unfiltered instances
and one connected pin. -/
theorem claim_C2_witness :
    (componentRecords (cfgV .DEF_5_8) [instA, instB] none).length = 2
    ∧ declaredPinCount [sensBTerm] none
      = emittedPinRecordCount (cfgV .DEF_5_8) [sensBTerm] none := by
  have h := claim_C2 (cfgV .DEF_5_8) [instA, instB] [sensBTerm] none (by decide)
  exact ⟨h.1, h.2⟩

/-- C3: the claim (each property value emitted only if its own name was
registered for the category; an unregistered property skipped even when
the object also carries registered ones) fails on the code, shown by
claim_C3_counterexample: hasProperties is an any-match test and
writeProperties then prints every property of the object.  This is the
amended statement that does hold: the + PROPERTY clause is emitted exactly
when at least one of the object's property names is registered for its
category, and in that case all of the object's property values are
emitted, unregistered ones included; an object none of whose property
names is registered emits no clause. -/
theorem claim_C3 (cats : List PropDefCategory) (props : List DbProperty) (t : ObjType) :
    (propertyClause (registeredNames cats) props t = ""
      ↔ ∀ p ∈ props, (registeredNames cats t).contains p.name = false)
    ∧ ((∃ p ∈ props, (registeredNames cats t).contains p.name = true) →
      propertyClause (registeredNames cats) props t
        = " + PROPERTY " ++ writeProperties props) := by
  cases hany : props.any (fun p => (registeredNames cats t).contains p.name) with
  | false =>
    have hall : ∀ p ∈ props, (registeredNames cats t).contains p.name = false := by
      intro p hp
      have := List.any_eq_false.mp hany p hp
      simpa using this
    constructor
    · simp only [propertyClause, hasProperties, hany, Bool.false_eq_true, if_false]
      exact iff_of_true trivial hall
    · intro ⟨p, hp, hc⟩
      rw [hall p hp] at hc
      simp at hc
  | true =>
    have hne : " + PROPERTY " ++ writeProperties props ≠ "" := by
      apply ne_empty_of_length_pos
      simp only [String.length_append]
      have h12 : (" + PROPERTY " : String).length = 12 := rfl
      omega
    obtain ⟨p, hp, hc⟩ := List.any_eq_true.mp hany
    constructor
    · simp only [propertyClause, hasProperties, hany, if_true]
      exact iff_of_false hne (fun hall => by rw [hall p hp] at hc; simp at hc)
    · intro _
      simp only [propertyClause, hasProperties, hany, if_true]

/-- C3 counterexample: with FOO registered for the net category and a net
carrying FOO plus the unregistered BAR, the emitted clause contains BAR,
refuting the claim that an unregistered property is never emitted. -/
theorem claim_C3_counterexample :
    (registeredNames c3Defs ObjType.NET).contains "BAR" = false
    ∧ containsTok (propertyClause (registeredNames c3Defs) c3Props .NET) "BAR" = true := by
  refine ⟨by decide, by decide⟩

/-- C3 witness: the amended statement applied to the FOO / BAR net: the
clause is emitted and carries both values. -/
theorem claim_C3_witness :
    propertyClause (registeredNames c3Defs) c3Props .NET = " + PROPERTY FOO 1 BAR 2 " := by
  have h := (claim_C3 c3Defs c3Props .NET).2
    ⟨{ name := "FOO", text := "1" }, by decide, by decide⟩
  exact h.trans (by decide)

/- One step of the net loop of the selection builder, characterized on
membership: a special or Mark_1ed net adds nothing; any other selected net
adds exactly the instances on its terminals. -/
theorem mem_markNetInsts (acc : Option (List Nat)) (n : SelNet) (i : Nat) :
    i ∈ (markNetInsts acc n).getD [] ↔
      i ∈ acc.getD [] ∨ (n.special = false ∧ n.mark1 = false ∧ i ∈ n.itermInsts) := by
  unfold markNetInsts
  split
  · rename_i hs
    constructor
    · exact Or.inl
    · rintro (h | ⟨h1, h2, _⟩)
      · exact h
      · rcases hs with hs | hs <;> simp_all
  · rename_i hs
    simp only [Option.getD_some, List.mem_append]
    constructor
    · rintro (h | h)
      · exact Or.inl h
      · refine Or.inr ⟨?_, ?_, h⟩ <;> simp_all [not_or]
    · rintro (h | ⟨_, _, h⟩)
      · exact Or.inl h
      · exact Or.inr h

/- The net loop of the selection builder, characterized on membership. -/
theorem mem_foldl_markNetInsts (snets : List SelNet) (acc : Option (List Nat)) (i : Nat) :
    i ∈ (snets.foldl markNetInsts acc).getD [] ↔
      i ∈ acc.getD [] ∨
        ∃ n ∈ snets, n.special = false ∧ n.mark1 = false ∧ i ∈ n.itermInsts := by
  induction snets generalizing acc with
  | nil => simp
  | cons n ns ih =>
    rw [List.foldl_cons, ih, mem_markNetInsts]
    constructor
    · rintro ((h | h) | ⟨m, hm, hp⟩)
      · exact Or.inl h
      · exact Or.inr ⟨n, List.mem_cons_self n ns, h⟩
      · exact Or.inr ⟨m, List.mem_cons_of_mem n hm, hp⟩
    · rintro (h | ⟨m, hm, hp⟩)
      · exact Or.inl (Or.inl h)
      · rcases List.mem_cons.mp hm with rfl | hm
        · exact Or.inl (Or.inr hp)
        · exact Or.inr ⟨m, hm, hp⟩

/- The net loop leaves the lazily created instance map absent exactly when
it started absent and every selected net is special or Mark_1ed. -/
theorem foldl_markNetInsts_eq_none (snets : List SelNet) (acc : Option (List Nat)) :
    snets.foldl markNetInsts acc = none ↔
      acc = none ∧ ∀ n ∈ snets, n.special = true ∨ n.mark1 = true := by
  induction snets generalizing acc with
  | nil => simp
  | cons n ns ih =>
    rw [List.foldl_cons, ih, List.forall_mem_cons]
    have hstep : markNetInsts acc n = none ↔
        acc = none ∧ (n.special = true ∨ n.mark1 = true) := by
      unfold markNetInsts
      split
      · rename_i hs
        exact ⟨fun h => ⟨h, hs⟩, fun h => h.1⟩
      · rename_i hs
        constructor
        · intro h
          simp at h
        · rintro ⟨_, h⟩
          exact absurd h hs
    rw [hstep]
    tauto

/-- C5: confirmed.  When the selection is non-empty the builder marks
exactly the selected nets, and the instance filter admits exactly the
explicitly selected instances plus, for each selected net that is neither
special nor Mark_1ed, the instances having a terminal on that net (so a
selected non-special net with k distinct connected instances contributes
exactly those k); the instance map is only created when something marks
it, and an empty selection builds no maps, so no filtering applies. -/
theorem claim_C5 (snets : List SelNet) (sinsts : List Nat) :
    (∀ i, instPassesFilter (buildInstMap snets sinsts) i = true ↔
      (buildInstMap snets sinsts = none ∨ i ∈ sinsts
        ∨ ∃ n ∈ snets, n.special = false ∧ n.mark1 = false ∧ i ∈ n.itermInsts))
    ∧ (buildInstMap snets sinsts = none ↔
        (sinsts = [] ∧ ∀ n ∈ snets, n.special = true ∨ n.mark1 = true))
    ∧ (∀ nid, netPassesFilter (buildNetMap snets) nid = true ↔
        (snets = [] ∨ nid ∈ snets.map (fun n => n.id)))
    ∧ (snets = [] → sinsts = [] →
        buildInstMap snets sinsts = none ∧ buildNetMap snets = none) := by
  refine ⟨?_, ?_, ?_, ?_⟩
  · intro i
    cases hm : buildInstMap snets sinsts with
    | none => simp [instPassesFilter]
    | some s =>
      have hmem : i ∈ s ↔
          i ∈ sinsts ∨ ∃ n ∈ snets, n.special = false ∧ n.mark1 = false ∧ i ∈ n.itermInsts := by
        unfold buildInstMap at hm
        by_cases hsi : sinsts.isEmpty = true
        · rw [if_pos hsi] at hm
          have hnil : sinsts = [] := List.isEmpty_iff.mp hsi
          have := mem_foldl_markNetInsts snets none i
          rw [hm] at this
          simp only [Option.getD_some, Option.getD_none, List.not_mem_nil,
            false_or] at this
          rw [this, hnil]
          simp
        · rw [if_neg hsi] at hm
          have hs : s = (snets.foldl markNetInsts none).getD [] ++ sinsts :=
            (Option.some_inj.mp hm).symm
          rw [hs, List.mem_append, mem_foldl_markNetInsts]
          simp only [Option.getD_none, List.not_mem_nil, false_or]
          exact or_comm
      simp only [instPassesFilter, hm]
      have hc : s.contains i = true ↔ i ∈ s := by simp
      rw [hc, hmem]
      constructor
      · exact Or.inr
      · rintro (h | h)
        · simp at h
        · exact h
  · unfold buildInstMap
    by_cases hsi : sinsts.isEmpty = true
    · rw [if_pos hsi]
      rw [foldl_markNetInsts_eq_none]
      have hnil : sinsts = [] := List.isEmpty_iff.mp hsi
      simp [hnil]
    · rw [if_neg hsi]
      constructor
      · intro h
        simp at h
      · rintro ⟨h, _⟩
        rw [h] at hsi
        simp at hsi
  · intro nid
    unfold buildNetMap netPassesFilter
    by_cases h : snets.isEmpty = true
    · rw [if_pos h]
      have hnil : snets = [] := List.isEmpty_iff.mp h
      simp [hnil]
    · rw [if_neg h]
      have hnil : ¬ snets = [] := fun he => h (by simp [he])
      simp only
      have hc : (snets.map (fun n => n.id)).contains nid = true
          ↔ nid ∈ snets.map (fun n => n.id) := by simp
      rw [hc]
      tauto
  · rintro rfl rfl
    exact ⟨rfl, rfl⟩

/-- C5 witness: selecting one ordinary net with terminals on instances 10
and 11 admits instance 10 through the filter. -/
theorem claim_C5_witness :
    instPassesFilter (buildInstMap [demoSelNet] []) 10 = true :=
  ((claim_C5 [demoSelNet] []).1 10).mpr
    (Or.inr (Or.inr ⟨demoSelNet, by decide, rfl, rfl, by decide⟩))

/-- C7: confirmed.  For an UNDEFINED-direction rectangle with a proper
bounding box: the fatal ZException is raised exactly when both spans are
odd; when exactly one span is even that axis is collapsed to its midpoint
(both collapsed coordinates coincide) and the collapsed span is the
emitted width; and when both spans are even the shorter one is collapsed
(x on ties). -/
theorem claim_C7 (b : SBoxData) (hdir : b.dir = .UNDEFINED)
    (hx : b.x1 ≤ b.x2) (hy : b.y1 ≤ b.y2) :
    (isErrExcept (specialPathGeom b) = true ↔
      (b.x2 - b.x1).toNat % 2 = 1 ∧ (b.y2 - b.y1).toNat % 2 = 1)
    ∧ ((b.x2 - b.x1).toNat % 2 = 0 → (b.y2 - b.y1).toNat % 2 = 1 →
      specialPathGeom b = .ok (b.x1 + ((b.x2 - b.x1).toNat / 2 : Nat), b.y1,
        b.x2 - ((b.x2 - b.x1).toNat / 2 : Nat), b.y2, (b.x2 - b.x1).toNat)
      ∧ b.x1 + (((b.x2 - b.x1).toNat / 2 : Nat) : Int)
          = b.x2 - (((b.x2 - b.x1).toNat / 2 : Nat) : Int))
    ∧ ((b.x2 - b.x1).toNat % 2 = 1 → (b.y2 - b.y1).toNat % 2 = 0 →
      specialPathGeom b = .ok (b.x1, b.y1 + ((b.y2 - b.y1).toNat / 2 : Nat),
        b.x2, b.y2 - ((b.y2 - b.y1).toNat / 2 : Nat), (b.y2 - b.y1).toNat)
      ∧ b.y1 + (((b.y2 - b.y1).toNat / 2 : Nat) : Int)
          = b.y2 - (((b.y2 - b.y1).toNat / 2 : Nat) : Int))
    ∧ ((b.x2 - b.x1).toNat % 2 = 0 → (b.y2 - b.y1).toNat % 2 = 0 →
      (b.y2 - b.y1).toNat < (b.x2 - b.x1).toNat →
      specialPathGeom b = .ok (b.x1, b.y1 + ((b.y2 - b.y1).toNat / 2 : Nat),
        b.x2, b.y2 - ((b.y2 - b.y1).toNat / 2 : Nat), (b.y2 - b.y1).toNat))
    ∧ ((b.x2 - b.x1).toNat % 2 = 0 → (b.y2 - b.y1).toNat % 2 = 0 →
      ¬ (b.y2 - b.y1).toNat < (b.x2 - b.x1).toNat →
      specialPathGeom b = .ok (b.x1 + ((b.x2 - b.x1).toNat / 2 : Nat), b.y1,
        b.x2 - ((b.x2 - b.x1).toNat / 2 : Nat), b.y2, (b.x2 - b.x1).toNat))
    ∧ ((b.x2 - b.x1).toNat % 2 = 1 → (b.y2 - b.y1).toNat % 2 = 1 →
      specialPathGeom b = .error "odd dimension in both directions") := by
  simp only [specialPathGeom, hdir]
  rcases Nat.mod_two_eq_zero_or_one (b.x2 - b.x1).toNat with hdx | hdx <;>
    rcases Nat.mod_two_eq_zero_or_one (b.y2 - b.y1).toNat with hdy | hdy
  · refine ⟨?_, ?_, ?_, ?_, ?_, ?_⟩
    · rw [if_pos ⟨hdx, hdy⟩]
      by_cases hlt : (b.y2 - b.y1).toNat < (b.x2 - b.x1).toNat
      · rw [if_pos hlt]
        exact iff_of_false (by simp [isErrExcept]) (by omega)
      · rw [if_neg hlt]
        exact iff_of_false (by simp [isErrExcept]) (by omega)
    · intro _ h2
      omega
    · intro h1 _
      omega
    · intro _ _ hlt
      rw [if_pos ⟨hdx, hdy⟩, if_pos hlt]
    · intro _ _ hlt
      rw [if_pos ⟨hdx, hdy⟩, if_neg hlt]
    · intro h1 _
      omega
  · refine ⟨?_, ?_, ?_, ?_, ?_, ?_⟩
    · rw [if_neg (by omega), if_pos hdx]
      exact iff_of_false (by simp [isErrExcept]) (by omega)
    · intro _ _
      rw [if_neg (by omega), if_pos hdx]
      exact ⟨rfl, by omega⟩
    · intro h1 _
      omega
    · intro _ h2
      omega
    · intro _ h2
      omega
    · intro h1 _
      omega
  · refine ⟨?_, ?_, ?_, ?_, ?_, ?_⟩
    · rw [if_neg (by omega), if_neg (by omega), if_pos hdy]
      exact iff_of_false (by simp [isErrExcept]) (by omega)
    · intro h1 _
      omega
    · intro _ _
      rw [if_neg (by omega), if_neg (by omega), if_pos hdy]
      exact ⟨rfl, by omega⟩
    · intro h1 _
      omega
    · intro h1 _
      omega
    · intro _ h2
      omega
  · refine ⟨?_, ?_, ?_, ?_, ?_, ?_⟩
    · rw [if_neg (by omega), if_neg (by omega), if_neg (by omega)]
      exact iff_of_true rfl ⟨hdx, hdy⟩
    · intro h1 _
      omega
    · intro _ h2
      omega
    · intro h1 _
      omega
    · intro h1 _
      omega
    · intro _ _
      rw [if_neg (by omega), if_neg (by omega), if_neg (by omega)]

/-- C7 witness: the UNDEFINED rectangle (0,0)-(2,5) has an even x span and
an odd y span, so the x axis is collapsed to its midpoint 1 with width 2. -/
theorem claim_C7_witness :
    specialPathGeom demoUndefBox = .ok (1, 0, 1, 5, 2) := by
  have h := (claim_C7 demoUndefBox rfl (by decide) (by decide)).2.1
    (by decide) (by decide)
  exact h.1.trans rfl

/-- C8: confirmed.  In the point case of the wire path encoder, the first
point of a path (point counter zero) is emitted in full form; a subsequent
point whose x equals the previous point's x is emitted with the x wildcard;
a subsequent point whose x differs but whose y equals the previous point's
y is emitted with the y wildcard (the two conditions are tested in that
order, so they cannot both fire); and the spec's three-point example
(0,0), (0,500), (300,500) emits exactly ( 0 0 ), ( * 500 ), ( 300 * ) in
order. -/
theorem claim_C8 (cfg : Config) (ndr : Option String) (netFixed : Bool)
    (st : WireState) (x y : Int) (color : Option Nat) (pk : Bool) :
    (st.pointCnt = 0 →
      (wireStep cfg ndr netFixed st (.point x y color) pk).2
        = " ( " ++ toString (dd cfg x) ++ " " ++ toString (dd cfg y) ++ " )")
    ∧ (st.pointCnt ≠ 0 → dd cfg x = st.prevX →
      (wireStep cfg ndr netFixed st (.point x y color) pk).2
        = wireBreak (st.pointCnt + 1) ++ pointMaskText (st.pointCnt + 1) color
          ++ " ( * " ++ toString (dd cfg y) ++ " )")
    ∧ (st.pointCnt ≠ 0 → dd cfg x ≠ st.prevX → dd cfg y = st.prevY →
      (wireStep cfg ndr netFixed st (.point x y color) pk).2
        = wireBreak (st.pointCnt + 1) ++ pointMaskText (st.pointCnt + 1) color
          ++ " ( " ++ toString (dd cfg x) ++ " * )")
    ∧ writeWire (cfgV .DEF_5_8) none false exampleOps
        = "\n      + ROUTED M1 ( 0 0 ) ( * 500 ) ( 300 * )" := by
  refine ⟨?_, ?_, ?_, by decide⟩
  · intro h
    simp only [wireStep, h]
    have hb : wireBreak (0 + 1) = "" := rfl
    simp [hb, String.empty_append]
  · intro h hx
    simp only [wireStep]
    rw [if_neg (by omega), if_pos hx]
    simp only [String.append_assoc]
  · intro h hx hy
    simp only [wireStep]
    rw [if_neg (by omega), if_neg hx, if_pos hy]
    simp only [String.append_assoc]

/-- C8 witness: a second point sharing x = 0 with the previous point (0,0)
is emitted with the x wildcard. -/
theorem claim_C8_witness :
    (wireStep (cfgV .DEF_5_8) none false
      { prevWireType := .ROUTED, pointCnt := 1, pathCnt := 1, prevX := 0, prevY := 0 }
      (.point 0 500 none) false).2 = " ( * 500 )" := by
  have h := (claim_C8 (cfgV .DEF_5_8) none false
    { prevWireType := .ROUTED, pointCnt := 1, pathCnt := 1, prevX := 0, prevY := 0 }
    0 500 none false).2.1 (by decide) (by decide)
  exact h.trans (by decide)

/-- C9: confirmed.  A rule-switch event prints a TAPERRULE token only when
the rule it names differs from the net's active non-default rule (in
particular a switch naming the active rule prints nothing), and when it
does print, the rule must also sit at the start of a path (point counter
zero); conversely, at the start of a path a switch to a rule other than
the active one does print the token. -/
theorem claim_C9 (cfg : Config) (ndr : Option String) (netFixed : Bool)
    (st : WireState) (r : String) (pk : Bool) :
    (ndr = some r → (wireStep cfg ndr netFixed st (.ruleOp r) pk).2 = "")
    ∧ ((wireStep cfg ndr netFixed st (.ruleOp r) pk).2 ≠ "" →
      st.pointCnt = 0 ∧ ndr ≠ some r
        ∧ (wireStep cfg ndr netFixed st (.ruleOp r) pk).2
            = " TAPERRULE " ++ r ++ " ")
    ∧ (st.pointCnt = 0 → ndr ≠ some r →
      (wireStep cfg ndr netFixed st (.ruleOp r) pk).2
        = " TAPERRULE " ++ r ++ " ") := by
  by_cases h0 : st.pointCnt = 0
  · cases hn : ndr with
    | none =>
      refine ⟨?_, ?_, ?_⟩
      · intro he
        simp at he
      · intro _
        refine ⟨h0, by simp, ?_⟩
        simp [wireStep, h0]
      · intro _ _
        simp [wireStep, h0]
    | some a =>
      by_cases har : a = r
      · refine ⟨?_, ?_, ?_⟩
        · intro _
          simp [wireStep, h0, har]
        · intro hne
          exfalso
          exact hne (by simp [wireStep, h0, har])
        · intro _ hd
          exact absurd (by rw [har]) hd
      · refine ⟨?_, ?_, ?_⟩
        · intro he
          rw [Option.some_inj.mp he] at har
          exact absurd rfl har
        · intro _
          refine ⟨h0, by simp [har], ?_⟩
          simp [wireStep, h0, har]
        · intro _ _
          simp [wireStep, h0, har]
  · refine ⟨?_, ?_, ?_⟩
    · intro _
      simp [wireStep, h0]
    · intro hne
      exact absurd (by simp [wireStep, h0]) hne
    · intro h
      exact absurd h h0

/-- C9 witness: with the net's active non-default rule R1, a switch naming
R1 prints nothing, and a switch naming R2 at the start of a path prints
its TAPERRULE token. -/
theorem claim_C9_witness :
    (wireStep (cfgV .DEF_5_8) (some "R1") false initWireState
      (.ruleOp "R1") false).2 = ""
    ∧ (wireStep (cfgV .DEF_5_8) (some "R1") false initWireState
      (.ruleOp "R2") false).2 = " TAPERRULE R2 " := by
  constructor
  · exact (claim_C9 (cfgV .DEF_5_8) (some "R1") false initWireState "R1" false).1 rfl
  · exact (claim_C9 (cfgV .DEF_5_8) (some "R1") false initWireState "R2" false).2.2
      rfl (by decide)

/-- C10: confirmed.  A point after the first of a path whose converted
coordinates both differ from the previous point's falls through every
branch of the point case: the only text printed is the every-eighth-token
line break (which carries no coordinate content), while the point counter
advances and the previous-point state takes the dropped point's
coordinates. -/
theorem claim_C10 (cfg : Config) (ndr : Option String) (netFixed : Bool)
    (st : WireState) (x y : Int) (color : Option Nat) (pk : Bool)
    (h0 : st.pointCnt ≠ 0) (hx : dd cfg x ≠ st.prevX) (hy : dd cfg y ≠ st.prevY) :
    (wireStep cfg ndr netFixed st (.point x y color) pk).2
      = wireBreak (st.pointCnt + 1)
    ∧ (wireStep cfg ndr netFixed st (.point x y color) pk).1
      = { st with pointCnt := st.pointCnt + 1, prevX := dd cfg x, prevY := dd cfg y } := by
  constructor
  · simp only [wireStep]
    rw [if_neg (by omega), if_neg hx, if_neg hy]
    exact String.append_empty _
  · simp only [wireStep]

/-- C10 witness: after a first point at (0,0), the diagonal step to (5,7)
prints nothing (the counter 2 is not a multiple of eight, so not even the
line break appears), while the counter and previous point advance. -/
theorem claim_C10_witness :
    (wireStep (cfgV .DEF_5_8) none false
      { prevWireType := .ROUTED, pointCnt := 1, pathCnt := 1, prevX := 0, prevY := 0 }
      (.point 5 7 none) false).2 = ""
    ∧ (wireStep (cfgV .DEF_5_8) none false
      { prevWireType := .ROUTED, pointCnt := 1, pathCnt := 1, prevX := 0, prevY := 0 }
      (.point 5 7 none) false).1
      = { prevWireType := .ROUTED, pointCnt := 2, pathCnt := 1, prevX := 5, prevY := 7 } := by
  have h := claim_C10 (cfgV .DEF_5_8) none false
    { prevWireType := .ROUTED, pointCnt := 1, pathCnt := 1, prevX := 0, prevY := 0 }
    5 7 none false (by decide) (by decide) (by decide)
  exact ⟨h.1.trans (by decide), h.2.trans (by decide)⟩

end DefOut
